import Mathlib

/- Shallow embedding of the token market-data clients of this repository
(`src/birdeye.py` and `src/dexscreener.py`).

Modeling conventions:
- JSON-decoded provider responses (`response.json()`) are modeled by the
  inductive type `Json`; Python dicts are insertion-ordered association
  lists with unique keys.
- Python `Decimal` values and Python floats are modeled as exact decimals
  (`Dec`: an integer mantissa and a power-of-ten scale, which is Python
  `Decimal`'s own representation); the rounding a Python `float` may
  introduce in `find_largest_pool_with_sol` is abstracted to exact
  decimal arithmetic.
- Python exceptions are modeled by `Except PyError`.
- The network is modeled by passing the provider's HTTP response
  (status code plus decoded JSON body) as an explicit argument; a function
  whose result is independent of that argument performs, at that point, no
  observable network call. -/

namespace TokenClients

/-- An exact decimal number, mirroring Python `Decimal`'s own
representation: the value `num / 10 ^ scale`.  Python `float` values are
modeled with the same exact type (their binary rounding is abstracted
away). -/
structure Dec where
  num : ℤ
  scale : ℕ
deriving DecidableEq

/-- The rational value a `Dec` denotes. -/
def Dec.toRat (d : Dec) : ℚ :=
  (d.num : ℚ) / 10 ^ d.scale

/-- Numeric strict order on exact decimals, by cross-multiplication. -/
def Dec.blt (a b : Dec) : Bool :=
  decide (a.num * 10 ^ b.scale < b.num * 10 ^ a.scale)

theorem Dec.blt_iff (a b : Dec) : Dec.blt a b = true ↔ a.toRat < b.toRat := by
  rw [Dec.blt, decide_eq_true_iff, Dec.toRat, Dec.toRat,
    div_lt_div_iff₀ (by positivity) (by positivity)]
  constructor <;> intro h <;> exact_mod_cast h

/-- JSON values as produced by `response.json()`: strings, numbers,
booleans, `None`, lists and dicts.  Numeric literals are modeled as the
exact decimals they are written as. -/
inductive Json where
  | str (s : String)
  | num (q : Dec)
  | bool (b : Bool)
  | null
  | arr (items : List Json)
  | obj (fields : List (String × Json))

mutual

/-- Decidable equality on JSON values. -/
def Json.decEq : (a b : Json) → Decidable (a = b)
  | .str a, .str b =>
    match String.decEq a b with
    | isTrue h => isTrue (by rw [h])
    | isFalse h => isFalse (by intro he; cases he; exact h rfl)
  | .num a, .num b =>
    match instDecidableEqDec a b with
    | isTrue h => isTrue (by rw [h])
    | isFalse h => isFalse (by intro he; cases he; exact h rfl)
  | .bool a, .bool b =>
    match Bool.decEq a b with
    | isTrue h => isTrue (by rw [h])
    | isFalse h => isFalse (by intro he; cases he; exact h rfl)
  | .null, .null => isTrue rfl
  | .arr a, .arr b =>
    match Json.decEqList a b with
    | isTrue h => isTrue (by rw [h])
    | isFalse h => isFalse (by intro he; cases he; exact h rfl)
  | .obj a, .obj b =>
    match Json.decEqObj a b with
    | isTrue h => isTrue (by rw [h])
    | isFalse h => isFalse (by intro he; cases he; exact h rfl)
  | .str _, .num _ => isFalse (by intro h; cases h)
  | .str _, .bool _ => isFalse (by intro h; cases h)
  | .str _, .null => isFalse (by intro h; cases h)
  | .str _, .arr _ => isFalse (by intro h; cases h)
  | .str _, .obj _ => isFalse (by intro h; cases h)
  | .num _, .str _ => isFalse (by intro h; cases h)
  | .num _, .bool _ => isFalse (by intro h; cases h)
  | .num _, .null => isFalse (by intro h; cases h)
  | .num _, .arr _ => isFalse (by intro h; cases h)
  | .num _, .obj _ => isFalse (by intro h; cases h)
  | .bool _, .str _ => isFalse (by intro h; cases h)
  | .bool _, .num _ => isFalse (by intro h; cases h)
  | .bool _, .null => isFalse (by intro h; cases h)
  | .bool _, .arr _ => isFalse (by intro h; cases h)
  | .bool _, .obj _ => isFalse (by intro h; cases h)
  | .null, .str _ => isFalse (by intro h; cases h)
  | .null, .num _ => isFalse (by intro h; cases h)
  | .null, .bool _ => isFalse (by intro h; cases h)
  | .null, .arr _ => isFalse (by intro h; cases h)
  | .null, .obj _ => isFalse (by intro h; cases h)
  | .arr _, .str _ => isFalse (by intro h; cases h)
  | .arr _, .num _ => isFalse (by intro h; cases h)
  | .arr _, .bool _ => isFalse (by intro h; cases h)
  | .arr _, .null => isFalse (by intro h; cases h)
  | .arr _, .obj _ => isFalse (by intro h; cases h)
  | .obj _, .str _ => isFalse (by intro h; cases h)
  | .obj _, .num _ => isFalse (by intro h; cases h)
  | .obj _, .bool _ => isFalse (by intro h; cases h)
  | .obj _, .null => isFalse (by intro h; cases h)
  | .obj _, .arr _ => isFalse (by intro h; cases h)

/-- Decidable equality on JSON arrays. -/
def Json.decEqList : (xs ys : List Json) → Decidable (xs = ys)
  | [], [] => isTrue rfl
  | [], _ :: _ => isFalse (by intro h; cases h)
  | _ :: _, [] => isFalse (by intro h; cases h)
  | x :: xs, y :: ys =>
    match Json.decEq x y with
    | isFalse h => isFalse (by intro he; cases he; exact h rfl)
    | isTrue h1 =>
      match Json.decEqList xs ys with
      | isTrue h2 => isTrue (by rw [h1, h2])
      | isFalse h2 => isFalse (by intro he; cases he; exact h2 rfl)

/-- Decidable equality on JSON object field lists. -/
def Json.decEqObj : (xs ys : List (String × Json)) → Decidable (xs = ys)
  | [], [] => isTrue rfl
  | [], _ :: _ => isFalse (by intro h; cases h)
  | _ :: _, [] => isFalse (by intro h; cases h)
  | (k, v) :: xs, (l, w) :: ys =>
    match String.decEq k l with
    | isFalse h => isFalse (by intro he; cases he; exact h rfl)
    | isTrue hk =>
      match Json.decEq v w with
      | isFalse h => isFalse (by intro he; cases he; exact h rfl)
      | isTrue hv =>
        match Json.decEqObj xs ys with
        | isTrue ht => isTrue (by rw [hk, hv, ht])
        | isFalse h => isFalse (by intro he; cases he; exact h rfl)

end

instance : DecidableEq Json := Json.decEq

/-- The Python exceptions the embedded code can raise.  `NoPositionsError`,
`InvalidSolanaAddress` and `InvalidTokens` are the repository's custom
exception classes (imported from `custom_exceptions`); the rest are Python
built-in exception kinds. -/
inductive PyError where
  | NoPositionsError
  | InvalidSolanaAddress (address : String)
  | InvalidTokens
  | KeyError (key : String)
  | IndexError
  | AttributeError
  | TypeError
  | InvalidOperation
deriving DecidableEq

instance {ε α : Type} [DecidableEq ε] [DecidableEq α] : DecidableEq (Except ε α) :=
  fun a b =>
    match a, b with
    | .ok x, .ok y => decidable_of_iff (x = y) (by simp)
    | .error x, .error y => decidable_of_iff (x = y) (by simp)
    | .ok _, .error _ => isFalse (fun h => Except.noConfusion h)
    | .error _, .ok _ => isFalse (fun h => Except.noConfusion h)

/-- An HTTP response as the clients observe it: the status code and the
JSON-decoded body. -/
structure Response where
  status_code : ℕ
  body : Json
deriving DecidableEq

/-- Lookup of a key in a (Python-dict) field list; dict keys are unique, so
the first match is the binding. -/
def jsonLookup : List (String × Json) → String → Option Json
  | [], _ => none
  | (k, v) :: rest, key => if k = key then some v else jsonLookup rest key

/-- Python `d.get(key, default)`: only dicts have `.get`; on anything else
an `AttributeError` is raised. -/
def Json.pyGet (j : Json) (key : String) (default : Json) : Except PyError Json :=
  match j with
  | .obj fields => .ok ((jsonLookup fields key).getD default)
  | _ => .error .AttributeError

/-- Python `d[key]` subscription by a string key: on a dict it is the
binding or a `KeyError`; subscripting a non-dict by a string is a
`TypeError` (strings/lists take integer indices). -/
def Json.getItem (j : Json) (key : String) : Except PyError Json :=
  match j with
  | .obj fields =>
    match jsonLookup fields key with
    | some v => .ok v
    | none => .error (.KeyError key)
  | _ => .error .TypeError

/-- Python truthiness of a JSON-decoded value (`if x:`). -/
def Json.truthy : Json → Bool
  | .str s => !s.isEmpty
  | .num q => if q.num = 0 then false else true
  | .bool b => b
  | .null => false
  | .arr items => !items.isEmpty
  | .obj fields => !fields.isEmpty

/-- Python `for x in v:` over a JSON value: the clients only ever iterate
JSON arrays; iterating any other decoded value is modeled as a type fault. -/
def Json.iterate (j : Json) : Except PyError (List Json) :=
  match j with
  | .arr items => .ok items
  | _ => .error .TypeError

/-- Accumulating base-10 digit reader: consumes a digit list left to right,
failing on a non-digit character. -/
def natOfDigitsAux (acc : ℕ) : List Char → Option ℕ
  | [] => some acc
  | c :: cs => if c.isDigit then natOfDigitsAux (10 * acc + (c.toNat - 48)) cs else none

/-- The value a digit string denotes, written positionally: each digit
weighted by ten to the number of digits to its right.  This is the
specification-side reading of a decimal digit sequence, to compare the
parser against. -/
def digitsVal : List Char → ℕ
  | [] => 0
  | c :: cs => (c.toNat - 48) * 10 ^ cs.length + digitsVal cs

/-- Parse an unsigned decimal literal (`digits`, `digits.digits`, `.digits`
or `digits.`; at least one digit in total) into the exact decimal it
denotes, as Python `Decimal(<string>)` does. -/
def parseUnsignedDecimal (cs : List Char) : Option Dec :=
  match cs.span (· ≠ '.') with
  | (intPart, []) =>
    if intPart.isEmpty then none
    else (natOfDigitsAux 0 intPart).map (fun n => Dec.mk n 0)
  | (intPart, _ :: fracPart) =>
    if fracPart.contains '.' then none
    else if intPart.isEmpty && fracPart.isEmpty then none
    else
      match natOfDigitsAux 0 intPart, natOfDigitsAux 0 fracPart with
      | some i, some f => some (Dec.mk (i * 10 ^ fracPart.length + f) fracPart.length)
      | _, _ => none

/-- Python `Decimal(<string>)` on a plain decimal literal with an optional
sign (the strings the providers send carry no exponent part): the exact
decimal value, or `decimal.InvalidOperation` for a malformed string. -/
def parseDecimalString (s : String) : Option Dec :=
  match s.toList with
  | '-' :: rest => (parseUnsignedDecimal rest).map (fun d => Dec.mk (-d.num) d.scale)
  | '+' :: rest => parseUnsignedDecimal rest
  | cs => parseUnsignedDecimal cs

/-- Python `Decimal(x)` on a JSON-decoded value: strings are parsed as exact
decimal literals, numbers convert exactly, booleans are ints in Python;
`None`, lists and dicts are conversion faults. -/
def pyDecimal (j : Json) : Except PyError Dec :=
  match j with
  | .str s =>
    match parseDecimalString s with
    | some d => .ok d
    | none => .error .InvalidOperation
  | .num d => .ok d
  | .bool b => .ok (Dec.mk (if b then 1 else 0) 0)
  | _ => .error .TypeError

/-- Python `float(x)` on a JSON-decoded value, modeled by the same exact
decimals (the binary rounding of an actual `float` is abstracted away):
strings are parsed as decimal literals, numbers and booleans convert; the
rest fault. -/
def pyFloat (j : Json) : Except PyError Dec :=
  match j with
  | .str s =>
    match parseDecimalString s with
    | some d => .ok d
    | none => .error .InvalidOperation
  | .num d => .ok d
  | .bool b => .ok (Dec.mk (if b then 1 else 0) 0)
  | _ => .error .TypeError

/-- The base58 alphabet used by Solana addresses. -/
def base58Alphabet : List Char :=
  "123456789ABCDEFGHJKLMNPQRSTUVWXYZabcdefghijkmnopqrstuvwxyz".toList

/-- The value of one base58 digit, or `none` for a character outside the
alphabet. -/
def base58DigitVal? (c : Char) : Option ℕ :=
  base58Alphabet.findIdx? (· = c)

/-- Fuel-driven count of base-256 digits of `n`; `fuel ≥ n` suffices since
`n / 256 < n` for positive `n`. -/
def byteLenAux : ℕ → ℕ → ℕ
  | 0, _ => 0
  | fuel + 1, n => if n = 0 then 0 else byteLenAux fuel (n / 256) + 1

/-- The number of bytes in the big-endian representation of `n` (zero bytes
for `n = 0`). -/
def byteLen (n : ℕ) : ℕ :=
  byteLenAux (n + 1) n

/-- Modelled from the spec: `is_solana_address` is defined in `helper.py`,
which is not among the sources; per the spec it decides whether a string is
"base58-encoded, decodes to exactly 32 bytes".  Base58 decoding maps each
leading `'1'` to a zero byte and the remaining digits to the big-endian
bytes of the denoted number; the string is valid when every character is in
the alphabet and the decoded byte count is exactly 32. -/
def is_solana_address (s : String) : Bool :=
  let cs := s.toList
  match cs.mapM base58DigitVal? with
  | none => false
  | some ds =>
    let n := ds.foldl (fun acc d => 58 * acc + d) 0
    let leadingOnes := (cs.takeWhile (· = '1')).length
    leadingOnes + byteLen n == 32

/-- Modelled from the spec: `PriceInfo` is defined in `common.py`, which is
not among the sources; per the spec it is an immutable value object holding
an exact decimal price (`value`) and an exact decimal `liquidity`. -/
structure PriceInfo where
  value : Dec
  liquidity : Dec
deriving DecidableEq

/-- Modelled from the spec: `TokenOverview` is defined in `common.py`,
which is not among the sources; per the spec it is an immutable value
object with price, symbol, decimals, last-trade time, liquidity and supply.
`dexscreener.py` passes `symbol`, `decimals`, `lastTradeUnixTime` and
`supply` through from the response unchecked, so those fields keep the raw
JSON values here. -/
structure TokenOverview where
  price : Dec
  symbol : Json
  decimals : Json
  lastTradeUnixTime : Json
  liquidity : Dec
  supply : Json
deriving DecidableEq

/-- Python dict assignment `d[k] = v` on an insertion-ordered dict: an
existing binding is updated in place, a new key is appended at the end. -/
def dictSet {κ α : Type} [DecidableEq κ] (d : List (κ × α)) (k : κ) (v : α) :
    List (κ × α) :=
  if d.any (fun kv => kv.1 = k) then
    d.map (fun kv => if kv.1 = k then (k, v) else kv)
  else
    d ++ [(k, v)]

/-- Python dict lookup `d.get(k)` as an option. -/
def dictGet? {κ α : Type} [DecidableEq κ] (d : List (κ × α)) (k : κ) : Option α :=
  (d.find? (fun kv => kv.1 = k)).map (fun kv => kv.2)

/-- The key list of a dict. -/
def dictKeys {κ α : Type} (d : List (κ × α)) : List κ :=
  d.map (fun kv => kv.1)

namespace BirdEye

/-- The body of the `for token_address in token_addresses` loop of
`BirdEyeClient.fetch_prices` (`src/birdeye.py`, lines 80-85): read
`data.get("data", {}).get(token_address, {})` and, when truthy, parse
`price` and `liquidity` (defaulting to `"0"`) and assign
`prices[token_address] = PriceInfo(value, liquidity)`. -/
def fetchPricesStep (data : Json) (prices : List (String × PriceInfo))
    (token_address : String) : Except PyError (List (String × PriceInfo)) := do
  let dataField ← data.pyGet "data" (.obj [])
  let token_data ← dataField.pyGet token_address (.obj [])
  if token_data.truthy then
    let value ← pyDecimal (← token_data.pyGet "price" (.str "0"))
    let liquidity ← pyDecimal (← token_data.pyGet "liquidity" (.str "0"))
    pure (dictSet prices token_address ⟨value, liquidity⟩)
  else
    pure prices

/-- The outcome `fetchPricesStep` produces for one address, separated from
the dict update: `some` a `PriceInfo` when the address has truthy data,
`none` when it is absent or empty (the address is then skipped). -/
def addrEntry (data : Json) (token_address : String) :
    Except PyError (Option PriceInfo) := do
  let dataField ← data.pyGet "data" (.obj [])
  let token_data ← dataField.pyGet token_address (.obj [])
  if token_data.truthy then
    let value ← pyDecimal (← token_data.pyGet "price" (.str "0"))
    let liquidity ← pyDecimal (← token_data.pyGet "liquidity" (.str "0"))
    pure (some ⟨value, liquidity⟩)
  else
    pure none

/-- `BirdEyeClient.fetch_prices` (`src/birdeye.py`, lines 47-87): raise
`NoPositionsError` on an empty list; issue one batched GET (the response is
the explicit `response` argument); raise `InvalidTokens` on a non-200
status or a falsy `success` flag; then build the price dict over the
requested addresses. -/
def fetch_prices (token_addresses : List String) (response : Response) :
    Except PyError (List (String × PriceInfo)) := do
  if token_addresses.isEmpty then
    throw .NoPositionsError
  if response.status_code ≠ 200 then
    throw .InvalidTokens
  let data := response.body
  let successFlag ← data.pyGet "success" .null
  if !successFlag.truthy then
    throw .InvalidTokens
  token_addresses.foldlM (fetchPricesStep data) []

/-- `BirdEyeClient.fetch_token_overview` (`src/birdeye.py`, lines 90-119):
raise `InvalidSolanaAddress` when the address fails validation; raise
`InvalidTokens` on a non-200 status or a falsy `success` flag; return the
`data` payload (the `TokenOverview(**overview_data)` construction lives in
`common.py`, outside the sources, so the raw payload is returned). -/
def fetch_token_overview (address : String) (response : Response) :
    Except PyError Json := do
  if !is_solana_address address then
    throw (.InvalidSolanaAddress address)
  if response.status_code ≠ 200 then
    throw .InvalidTokens
  let data := response.body
  let successFlag ← data.pyGet "success" .null
  if !successFlag.truthy then
    throw .InvalidTokens
  data.pyGet "data" (.obj [])

end BirdEye

namespace DexScreener

/-- `DexScreenerClient._validate_token_address` (`src/dexscreener.py`,
lines 26-45): `NoPositionsError` for an empty string, then
`InvalidSolanaAddress` for an invalid one. -/
def _validate_token_address (token_address : String) : Except PyError Unit := do
  if token_address.isEmpty then
    throw .NoPositionsError
  if !is_solana_address token_address then
    throw (.InvalidSolanaAddress token_address)

/-- `DexScreenerClient._validate_token_addresses` (`src/dexscreener.py`,
lines 47-65): `NoPositionsError` for an empty list, then each address is
validated in order. -/
def _validate_token_addresses (token_addresses : List String) : Except PyError Unit := do
  if token_addresses.isEmpty then
    throw .NoPositionsError
  token_addresses.forM _validate_token_address

/-- `DexScreenerClient._validate_response` (`src/dexscreener.py`,
lines 67-82): `InvalidTokens` unless the status code is 200. -/
def _validate_response (resp : Response) : Except PyError Unit := do
  if resp.status_code ≠ 200 then
    throw .InvalidTokens

/-- `DexScreenerClient._call_api` (`src/dexscreener.py`, lines 84-104):
validate the address, perform the GET (the response is the explicit
argument), validate the status and return the decoded body. -/
def _call_api (token_address : String) (response : Response) :
    Except PyError Json := do
  _validate_token_address token_address
  _validate_response response
  pure response.body

/-- `DexScreenerClient._call_api_bulk` (`src/dexscreener.py`,
lines 107-127): validate every address, perform the GET, validate the
status and return the decoded body. -/
def _call_api_bulk (token_addresses : List String) (response : Response) :
    Except PyError Json := do
  _validate_token_addresses token_addresses
  _validate_response response
  pure response.body

/-- One pair of the `for pair in data['pairs']` loop of
`DexScreenerClient.fetch_prices_dex` (`src/dexscreener.py`, lines 145-151):
`Decimal(pair['priceNative'])`, `Decimal(pair['liquidity']['usd'])` and the
dict key `pair['baseToken']['address']`, in evaluation order. -/
def dexPairEntry (pair : Json) : Except PyError (Json × PriceInfo) := do
  let price ← pyDecimal (← pair.getItem "priceNative")
  let liquidity ← pyDecimal (← (← pair.getItem "liquidity").getItem "usd")
  let key ← (← pair.getItem "baseToken").getItem "address"
  pure (key, ⟨price, liquidity⟩)

/-- The loop body of `fetch_prices_dex`: parse the pair and write
`prices_and_liquidity[pair['baseToken']['address']] = price_info`. -/
def dexStep (prices_and_liquidity : List (Json × PriceInfo)) (pair : Json) :
    Except PyError (List (Json × PriceInfo)) := do
  let entry ← dexPairEntry pair
  pure (dictSet prices_and_liquidity entry.1 entry.2)

/-- `DexScreenerClient.fetch_prices_dex` (`src/dexscreener.py`,
lines 129-153): one bulk call, then each response pair is written into the
result dict keyed by its base-token address. -/
def fetch_prices_dex (token_addresses : List String) (response : Response) :
    Except PyError (List (Json × PriceInfo)) := do
  let data ← _call_api_bulk token_addresses response
  let pairs ← (← data.getItem "pairs").iterate
  pairs.foldlM dexStep []

/-- `DexScreenerClient.fetch_token_overview` (`src/dexscreener.py`,
lines 157-187): one call, then the overview is built from
`data['pairs'][0]` — an empty pairs list hits Python list indexing and
raises `IndexError`. -/
def fetch_token_overview (address : String) (response : Response) :
    Except PyError TokenOverview := do
  let data ← _call_api address response
  let pairs ← (← data.getItem "pairs").iterate
  let pair ← match pairs.head? with
    | some p => pure p
    | none => throw .IndexError
  let base_token ← pair.getItem "baseToken"
  let liquidity ← pair.getItem "liquidity"
  let price_usd ← pair.pyGet "priceUsd" (.str "0")
  let price ← pyDecimal price_usd
  let symbol ← base_token.pyGet "symbol" (.str "")
  let decimals ← base_token.pyGet "decimals" (.num (Dec.mk 0 0))
  let lastTradeUnixTime ← pair.pyGet "lastTradeUnixTime" (.num (Dec.mk 0 0))
  let liquidityUsd ← pyDecimal (← liquidity.getItem "usd")
  let supply ← pair.pyGet "supply" (.num (Dec.mk 0 0))
  pure ⟨price, symbol, decimals, lastTradeUnixTime, liquidityUsd, supply⟩

/-- The per-entry test-and-measure of the loop of
`DexScreenerClient.find_largest_pool_with_sol` (`src/dexscreener.py`,
lines 195-201): `entry.get("baseToken", {}).get("address") == address`
short-circuits before `entry["quoteToken"]["address"] == SOL_MINT`; for a
matching entry the result is `float(entry.get("liquidity", {}).get("usd", 0))`,
for a non-matching one `none`.  `SOL_MINT` is the process-wide configured
wrapped-SOL mint (read from the environment at startup), passed here as an
explicit parameter. -/
def entryLiq (sol_mint address : String) (entry : Json) :
    Except PyError (Option Dec) := do
  let baseAddr ← (← entry.pyGet "baseToken" (.obj [])).pyGet "address" .null
  if baseAddr = .str address then
    let quoteAddr ← (← entry.getItem "quoteToken").getItem "address"
    if quoteAddr = .str sol_mint then
      let liqJson ← (← entry.pyGet "liquidity" (.obj [])).pyGet "usd" (.num (Dec.mk 0 0))
      let liquidity_usd ← pyFloat liqJson
      pure (some liquidity_usd)
    else
      pure none
  else
    pure none

/-- The loop body of `find_largest_pool_with_sol`: the running state is
`(max_entry, max_liquidity_usd)`, updated only when the entry matches and
its liquidity strictly exceeds the running maximum. -/
def poolStep (sol_mint address : String) (st : Json × Dec) (entry : Json) :
    Except PyError (Json × Dec) := do
  match ← entryLiq sol_mint address entry with
  | some liquidity_usd =>
    if Dec.blt st.2 liquidity_usd then
      pure (entry, liquidity_usd)
    else
      pure st
  | none => pure st

/-- `DexScreenerClient.find_largest_pool_with_sol` (`src/dexscreener.py`,
lines 190-202): scan the pairs with initial state `max_entry = {}`,
`max_liquidity_usd = -1`, and return the final `max_entry`. -/
def find_largest_pool_with_sol (sol_mint : String) (token_pairs : List Json)
    (address : String) : Except PyError Json := do
  let final ← token_pairs.foldlM (poolStep sol_mint address) (Json.obj [], Dec.mk (-1) 0)
  pure final.1

/-- Whether a response pair parses successfully and carries the base-token
address `k` — the pairs that write to key `k` in `fetch_prices_dex`. -/
def pairKeyIs (k : Json) (pair : Json) : Bool :=
  match dexPairEntry pair with
  | .ok e => e.1 == k
  | .error _ => false

/-- The `PriceInfo` of the last pair in response order whose base-token
address is `k`, if any. -/
def lastPairInfo (pairs : List Json) (k : Json) : Option PriceInfo :=
  (pairs.reverse.find? (pairKeyIs k)).bind fun p =>
    match dexPairEntry p with
    | .ok e => some e.2
    | .error _ => none

/-- Whether `entryLiq` runs without raising on this entry. -/
def entryOk (sol_mint address : String) (entry : Json) : Bool :=
  match entryLiq sol_mint address entry with
  | .ok _ => true
  | .error _ => false

/-- The pairs `find_largest_pool_with_sol` treats as matching (base token
equal to `address`, quote token equal to `sol_mint`), each with its USD
liquidity as the code reads it. -/
def matchedPairs (sol_mint address : String) (token_pairs : List Json) :
    List (Json × Dec) :=
  token_pairs.filterMap fun e =>
    match entryLiq sol_mint address e with
    | .ok (some l) => some (e, l)
    | _ => none

/-- The pure running-maximum step underlying `poolStep` once the matching
pairs and their liquidities are in hand: keep the newcomer only when its
liquidity strictly exceeds the current maximum. -/
def maxStep (st p : Json × Dec) : Json × Dec :=
  if Dec.blt st.2 p.2 then p else st

/-- The spec's matching condition on a pair record: the base-token address
(read leniently, as the code does) equals `address` and the quote-token
address (read by subscription) equals `sol_mint`; reads that raise count
as not matching. -/
def pairMatchesSpec (sol_mint address : String) (entry : Json) : Bool :=
  (match (entry.pyGet "baseToken" (.obj [])).bind
      (fun b => b.pyGet "address" .null) with
   | .ok v => v == .str address
   | .error _ => false) &&
  (match (entry.getItem "quoteToken").bind (fun q => q.getItem "address") with
   | .ok v => v == .str sol_mint
   | .error _ => false)

/-- A pair record on which `entryLiq` is guaranteed not to raise and not to
match: either its base-token address reads successfully as something other
than `address`, or it reads as `address` and its quote-token address reads
successfully as something other than `sol_mint`. -/
def safeNonMatch (sol_mint address : String) (entry : Json) : Bool :=
  match (entry.pyGet "baseToken" (.obj [])).bind
      (fun b => b.pyGet "address" .null) with
  | .error _ => false
  | .ok v =>
    if v == .str address then
      match (entry.getItem "quoteToken").bind (fun q => q.getItem "address") with
      | .error _ => false
      | .ok w => !(w == .str sol_mint)
    else
      true

end DexScreener

/-- The Solana system-program address (32 `'1'` characters, decoding to 32
zero bytes): a syntactically valid address used as a concrete input. -/
def sysAddr : String := "11111111111111111111111111111111"

/-- A second syntactically valid Solana address (31 zero bytes followed by
the value of base58 digit `b`). -/
def sysAddrB : String := "1111111111111111111111111111111b"

/-- A string that is not a valid Solana address. -/
def badAddr : String := "not-base58!"

/-- A Provider A multi-price response carrying data for `sysAddr` only. -/
def respBirdOne : Response :=
  ⟨200, .obj [("success", .bool true),
              ("data", .obj [(sysAddr, .obj [("price", .str "1.23"),
                                             ("liquidity", .str "1000")])])]⟩

/-- A Provider A multi-price response whose price is a high-precision
decimal string. -/
def respBirdHighPrecision : Response :=
  ⟨200, .obj [("success", .bool true),
              ("data", .obj [(sysAddr, .obj [("price", .str "0.000000001234"),
                                             ("liquidity", .str "1000")])])]⟩

/-- A successful Provider A response with no `data` key at all. -/
def respBirdNoData : Response :=
  ⟨200, .obj [("success", .bool true)]⟩

/-- A successful Provider A response whose only requested entry is an empty
object. -/
def respBirdEmptyEntry : Response :=
  ⟨200, .obj [("success", .bool true),
              ("data", .obj [(sysAddr, .obj [])])]⟩

/-- A well-formed trading-pair record with the given base and quote token
addresses and USD liquidity (native price `"1"`). -/
def mkPair (base quote : String) (liq : Dec) : Json :=
  .obj [("priceNative", .str "1"),
        ("liquidity", .obj [("usd", .num liq)]),
        ("baseToken", .obj [("address", .str base)]),
        ("quoteToken", .obj [("address", .str quote)])]

/-- A Provider B bulk response whose single pair has a base token that was
never requested. -/
def respDexForeignKey : Response :=
  ⟨200, .obj [("pairs", .arr [mkPair "FOREIGN" "SOL" (Dec.mk 5 0)])]⟩

/-- A Provider B bulk response whose single pair has base token `sysAddr`. -/
def respDexOwnKey : Response :=
  ⟨200, .obj [("pairs", .arr [mkPair sysAddr "SOL" (Dec.mk 5 0)])]⟩

/-- The first of two pairs sharing the base token `sysAddr`. -/
def pairEarly : Json := mkPair sysAddr "SOL" (Dec.mk 100 0)

/-- The second of two pairs sharing the base token `sysAddr`, with a
different native price and liquidity. -/
def pairLate : Json :=
  .obj [("priceNative", .str "7"),
        ("liquidity", .obj [("usd", .num (Dec.mk 200 0))]),
        ("baseToken", .obj [("address", .str sysAddr)]),
        ("quoteToken", .obj [("address", .str "SOL")])]

/-- A Provider B bulk response with two pairs sharing the base token
`sysAddr` but different prices: exercises last-write-wins. -/
def respDexTwoPairs : Response :=
  ⟨200, .obj [("pairs", .arr [pairEarly, pairLate])]⟩

/-- A successful Provider B single-token response with an empty pairs
list. -/
def respDexNoPairs : Response :=
  ⟨200, .obj [("pairs", .arr [])]⟩

/-- A pair record whose base token matches `"X"` but which has no
`quoteToken` key at all. -/
def pairNoQuote : Json :=
  .obj [("baseToken", .obj [("address", .str "X")])]

/-- A matching pair whose USD liquidity is −2, below the scan's initial
maximum of −1. -/
def pairNegLiq : Json := mkPair "X" "SOL" (Dec.mk (-2) 0)

/-- The three pairs of the spec's `findLargestPoolWithSol` example. -/
def examplePools : List Json :=
  [mkPair "X" "SOL" (Dec.mk 100 0), mkPair "X" "SOL" (Dec.mk 500 0),
   mkPair "X" "OTHER" (Dec.mk 900 0)]

theorem dictGet?_map_ne {κ α : Type} [DecidableEq κ] (d : List (κ × α)) (k k' : κ)
    (v : α) (hne : k' ≠ k) :
    dictGet? (d.map (fun kv => if kv.1 = k then (k, v) else kv)) k' = dictGet? d k' := by
  induction d with
  | nil => rfl
  | cons hd tl ih =>
    obtain ⟨a, b⟩ := hd
    by_cases hak : a = k
    · subst hak
      rw [dictGet?, dictGet?, List.map_cons, if_pos rfl,
        List.find?_cons_of_neg _ (by simpa using Ne.symm hne),
        List.find?_cons_of_neg _ (by simpa using Ne.symm hne)]
      exact ih
    · by_cases hak' : a = k'
      · subst hak'
        rw [dictGet?, dictGet?, List.map_cons, if_neg (by simpa using hak),
          List.find?_cons_of_pos _ (by simp), List.find?_cons_of_pos _ (by simp)]
      · rw [dictGet?, dictGet?, List.map_cons, if_neg (by simpa using hak),
          List.find?_cons_of_neg _ (by simpa using hak'),
          List.find?_cons_of_neg _ (by simpa using hak')]
        exact ih

theorem dictGet?_dictSet_self {κ α : Type} [DecidableEq κ] (d : List (κ × α))
    (k : κ) (v : α) : dictGet? (dictSet d k v) k = some v := by
  rw [dictSet]
  by_cases hany : d.any (fun kv => kv.1 = k)
  · rw [if_pos hany]
    induction d with
    | nil => simp at hany
    | cons hd tl ih =>
      obtain ⟨a, b⟩ := hd
      by_cases hak : a = k
      · subst hak
        rw [List.map_cons, if_pos rfl, dictGet?, List.find?_cons_of_pos _ (by simp)]
        rfl
      · simp only [List.any_cons, Bool.or_eq_true, decide_eq_true_eq] at hany
        rcases hany with h | h
        · exact absurd h hak
        · rw [List.map_cons, if_neg (by simpa using hak), dictGet?,
            List.find?_cons_of_neg _ (by simpa using hak)]
          exact ih (by simpa using h)
  · rw [if_neg hany, dictGet?, List.find?_append]
    have h1 : d.find? (fun kv => kv.1 = k) = none := by
      rw [List.find?_eq_none]
      intro kv hkv
      simp only [List.any_eq_true, decide_eq_true_eq] at hany
      push_neg at hany
      simp [hany kv hkv]
    rw [h1, Option.none_or, List.find?_cons_of_pos _ (by simp)]
    rfl

theorem dictGet?_dictSet {κ α : Type} [DecidableEq κ] (d : List (κ × α)) (k k' : κ)
    (v : α) :
    dictGet? (dictSet d k v) k' = if k' = k then some v else dictGet? d k' := by
  by_cases hk : k' = k
  · subst hk
    rw [if_pos rfl, dictGet?_dictSet_self]
  · rw [if_neg hk, dictSet]
    by_cases hany : d.any (fun kv => kv.1 = k)
    · rw [if_pos hany, dictGet?_map_ne d k k' v hk]
    · rw [if_neg hany, dictGet?, dictGet?, List.find?_append,
        List.find?_cons_of_neg _ (by simpa using Ne.symm hk)]
      simp

theorem dictGet?_eq_none_iff {κ α : Type} [DecidableEq κ] (d : List (κ × α)) (k : κ) :
    dictGet? d k = none ↔ k ∉ dictKeys d := by
  rw [dictGet?, dictKeys, Option.map_eq_none', List.find?_eq_none]
  simp only [decide_eq_true_eq, List.mem_map, Prod.exists, not_exists, not_and]
  constructor
  · intro h a b hab heq
    exact h (a, b) hab heq
  · intro h kv hkv heq
    exact h kv.1 kv.2 hkv heq

theorem fetchPricesStep_eq (data : Json) (prices : List (String × PriceInfo))
    (a : String) :
    BirdEye.fetchPricesStep data prices a =
      match BirdEye.addrEntry data a with
      | .ok (some pi) => .ok (dictSet prices a pi)
      | .ok none => .ok prices
      | .error e => .error e := by
  simp only [BirdEye.fetchPricesStep, BirdEye.addrEntry, bind, Except.bind]
  cases hdf : data.pyGet "data" (.obj []) with
  | error e => rfl
  | ok df =>
    dsimp only
    cases htd : df.pyGet a (.obj []) with
    | error e => rfl
    | ok td =>
      dsimp only
      by_cases ht : td.truthy = true
      case neg => simp [ht, pure, Except.pure]
      case pos =>
        simp only [ht, if_true]
        cases hp : td.pyGet "price" (.str "0") with
        | error e => rfl
        | ok pv =>
          dsimp only
          cases hpd : pyDecimal pv with
          | error e => rfl
          | ok value =>
            dsimp only
            cases hl : td.pyGet "liquidity" (.str "0") with
            | error e => rfl
            | ok lv =>
              dsimp only
              cases hld : pyDecimal lv with
              | error e => rfl
              | ok liq => rfl

theorem birdeye_fold_get (data : Json) (addrs : List String) :
    ∀ (acc d : List (String × PriceInfo)),
      List.foldlM (BirdEye.fetchPricesStep data) acc addrs = .ok d →
      ∀ a : String,
        dictGet? d a =
          if a ∈ addrs then
            match BirdEye.addrEntry data a with
            | .ok (some pi) => some pi
            | _ => dictGet? acc a
          else dictGet? acc a := by
  induction addrs with
  | nil =>
    intro acc d h a
    simp only [List.foldlM_nil] at h
    cases h
    simp
  | cons x rest ih =>
    intro acc d h a
    rw [List.foldlM_cons, fetchPricesStep_eq] at h
    cases hx : BirdEye.addrEntry data x with
    | error e =>
      rw [hx] at h
      exact absurd h (by simp [bind, Except.bind])
    | ok r =>
      rw [hx] at h
      cases r with
      | none =>
        simp only [bind, Except.bind] at h
        have hrec := ih acc d h a
        by_cases hax : a = x
        · subst hax
          rw [hx] at hrec
          rw [hrec, hx]
          by_cases har : a ∈ rest <;>
            simp [har]
        · simp only [List.mem_cons, hax, false_or] at *
          exact hrec
      | some pi =>
        simp only [bind, Except.bind] at h
        have hrec := ih (dictSet acc x pi) d h a
        by_cases hax : a = x
        · subst hax
          rw [hx] at hrec
          rw [hrec, hx]
          by_cases har : a ∈ rest <;>
            simp [har, dictGet?_dictSet_self]
        · rw [dictGet?_dictSet, if_neg hax] at hrec
          simp only [List.mem_cons, hax, false_or] at *
          exact hrec

theorem birdeye_fold_skip (data : Json) (addrs : List String)
    (h : ∀ a ∈ addrs, BirdEye.addrEntry data a = .ok none) :
    ∀ acc, List.foldlM (BirdEye.fetchPricesStep data) acc addrs = .ok acc := by
  induction addrs with
  | nil => intro acc; rfl
  | cons x rest ih =>
    intro acc
    rw [List.foldlM_cons, fetchPricesStep_eq, h x (by simp)]
    simp only [bind, Except.bind]
    exact ih (fun a ha => h a (by simp [ha])) acc

theorem fetch_prices_ok_inv (addrs : List String) (resp : Response)
    (d : List (String × PriceInfo))
    (h : BirdEye.fetch_prices addrs resp = .ok d) :
    List.foldlM (BirdEye.fetchPricesStep resp.body) [] addrs = .ok d := by
  rw [BirdEye.fetch_prices] at h
  by_cases he : addrs.isEmpty
  · simp [he, bind, Except.bind, pure, Except.pure, throw, throwThe,
      MonadExceptOf.throw] at h
  · simp only [he, Bool.false_eq_true, if_false, bind, Except.bind, pure,
      Except.pure] at h
    by_cases hs : resp.status_code = 200
    · simp only [hs, ne_eq, not_true_eq_false, if_false, ite_false] at h
      cases hsf : resp.body.pyGet "success" .null with
      | error e =>
        rw [hsf] at h
        simp at h
      | ok sf =>
        rw [hsf] at h
        by_cases htr : sf.truthy = true
        · simpa [htr] using h
        · simp only [Bool.not_eq_true] at htr
          simp [htr, throw, throwThe, MonadExceptOf.throw] at h
    · simp [hs, throw, throwThe, MonadExceptOf.throw] at h

theorem dexStep_eq (prices : List (Json × PriceInfo)) (pair : Json) :
    DexScreener.dexStep prices pair =
      match DexScreener.dexPairEntry pair with
      | .ok e => .ok (dictSet prices e.1 e.2)
      | .error e => .error e := by
  simp only [DexScreener.dexStep, bind, Except.bind]
  cases h : DexScreener.dexPairEntry pair <;> rfl

theorem lastPairInfo_cons (p : Json) (rest : List Json) (k : Json) :
    DexScreener.lastPairInfo (p :: rest) k =
      match DexScreener.lastPairInfo rest k with
      | some pi => some pi
      | none =>
        match DexScreener.dexPairEntry p with
        | .ok e => if e.1 = k then some e.2 else none
        | .error _ => none := by
  rw [DexScreener.lastPairInfo, DexScreener.lastPairInfo, List.reverse_cons,
    List.find?_append]
  cases hf : rest.reverse.find? (DexScreener.pairKeyIs k) with
  | some q =>
    have hq := List.find?_some hf
    rw [DexScreener.pairKeyIs] at hq
    cases hqe : DexScreener.dexPairEntry q with
    | error e => rw [hqe] at hq; cases hq
    | ok e =>
      rw [hqe] at hq
      simp [Option.or, hqe]
  | none =>
    simp only [Option.none_or, Option.none_bind]
    cases hpe : DexScreener.dexPairEntry p with
    | error e =>
      have hkp : DexScreener.pairKeyIs k p = false := by
        rw [DexScreener.pairKeyIs, hpe]
      simp [List.find?, hkp]
    | ok e =>
      by_cases hek : e.1 = k
      · have hkp : DexScreener.pairKeyIs k p = true := by
          rw [DexScreener.pairKeyIs, hpe]
          exact beq_iff_eq.mpr hek
        simp [List.find?, hkp, hpe, hek]
      · have hkp : DexScreener.pairKeyIs k p = false := by
          rw [DexScreener.pairKeyIs, hpe]
          exact beq_eq_false_iff_ne.mpr hek
        simp [List.find?, hkp, hek]

theorem dex_fold_get : ∀ (pairs : List Json) (acc d : List (Json × PriceInfo)),
    List.foldlM DexScreener.dexStep acc pairs = .ok d →
    ∀ k, dictGet? d k =
      match DexScreener.lastPairInfo pairs k with
      | some pi => some pi
      | none => dictGet? acc k := by
  intro pairs
  induction pairs with
  | nil =>
    intro acc d h k
    simp only [List.foldlM_nil] at h
    cases h
    simp [DexScreener.lastPairInfo]
  | cons p rest ih =>
    intro acc d h k
    rw [List.foldlM_cons, dexStep_eq] at h
    cases he : DexScreener.dexPairEntry p with
    | error e =>
      rw [he] at h
      exact absurd h (by simp [bind, Except.bind])
    | ok e =>
      rw [he] at h
      simp only [bind, Except.bind] at h
      have hrec := ih (dictSet acc e.1 e.2) d h k
      rw [lastPairInfo_cons, he, hrec]
      cases hl : DexScreener.lastPairInfo rest k with
      | some pi => rfl
      | none =>
        by_cases hek : e.1 = k
        · subst hek
          simp [dictGet?_dictSet_self]
        · rw [dictGet?_dictSet, if_neg (fun hh => hek hh.symm)]
          simp [hek]

theorem fetch_prices_dex_ok_inv (addrs : List String) (resp : Response)
    (d : List (Json × PriceInfo))
    (h : DexScreener.fetch_prices_dex addrs resp = .ok d) :
    ∃ pairs : List Json,
      resp.body.getItem "pairs" = .ok (.arr pairs) ∧
      List.foldlM DexScreener.dexStep [] pairs = .ok d := by
  rw [DexScreener.fetch_prices_dex] at h
  cases hb : DexScreener._call_api_bulk addrs resp with
  | error e =>
    rw [hb] at h
    simp [bind, Except.bind] at h
  | ok data =>
    rw [hb] at h
    simp only [bind, Except.bind] at h
    have hdata : data = resp.body := by
      rw [DexScreener._call_api_bulk] at hb
      cases hv : DexScreener._validate_token_addresses addrs with
      | error e =>
        rw [hv] at hb
        simp [bind, Except.bind] at hb
      | ok u =>
        rw [hv] at hb
        simp only [bind, Except.bind] at hb
        rw [DexScreener._validate_response] at hb
        by_cases hs : resp.status_code = 200
        · simp only [hs, ne_eq, not_true_eq_false, if_false, ite_false, bind,
            Except.bind, pure, Except.pure] at hb
          exact (Except.ok.inj hb).symm
        · simp [hs, throw, throwThe, MonadExceptOf.throw, bind, Except.bind] at hb
    subst hdata
    cases hg : resp.body.getItem "pairs" with
    | error e =>
      rw [hg] at h
      simp [bind, Except.bind] at h
    | ok pj =>
      rw [hg] at h
      cases pj with
      | arr items =>
        refine ⟨items, rfl, ?_⟩
        simpa [bind, Except.bind, Json.iterate] using h
      | str s => simp [bind, Except.bind, Json.iterate] at h
      | num q => simp [bind, Except.bind, Json.iterate] at h
      | bool b => simp [bind, Except.bind, Json.iterate] at h
      | null => simp [bind, Except.bind, Json.iterate] at h
      | obj fields => simp [bind, Except.bind, Json.iterate] at h

theorem lastPairInfo_mem (pairs : List Json) (k : Json) (pi : PriceInfo)
    (h : DexScreener.lastPairInfo pairs k = some pi) :
    ∃ p ∈ pairs, ∃ e, DexScreener.dexPairEntry p = .ok e ∧ e.1 = k ∧ e.2 = pi := by
  rw [DexScreener.lastPairInfo] at h
  cases hf : pairs.reverse.find? (DexScreener.pairKeyIs k) with
  | none =>
    rw [hf] at h
    cases h
  | some q =>
    rw [hf] at h
    have hmem : q ∈ pairs.reverse := List.mem_of_find?_eq_some hf
    have hq := List.find?_some hf
    rw [DexScreener.pairKeyIs] at hq
    cases hqe : DexScreener.dexPairEntry q with
    | error e =>
      rw [hqe] at hq
      cases hq
    | ok e =>
      rw [hqe] at hq
      simp only [hqe, Option.some_bind] at h
      cases h
      exact ⟨q, List.mem_reverse.mp hmem, e, hqe, beq_iff_eq.mp hq, rfl⟩

theorem validate_token_address_ok (a : String) (h1 : a.isEmpty = false)
    (h2 : is_solana_address a = true) :
    DexScreener._validate_token_address a = .ok () := by
  rw [DexScreener._validate_token_address]
  simp [h1, h2, pure, Except.pure, bind, Except.bind]

theorem validate_token_address_invalid (a : String) (h1 : a.isEmpty = false)
    (h2 : is_solana_address a = false) :
    DexScreener._validate_token_address a = .error (.InvalidSolanaAddress a) := by
  rw [DexScreener._validate_token_address]
  simp [h1, h2, pure, Except.pure, bind, Except.bind, throw, throwThe,
    MonadExceptOf.throw]

theorem validate_forM_error (er : PyError) (bad : String) :
    ∀ pre : List String,
      (∀ b ∈ pre, DexScreener._validate_token_address b = .ok ()) →
      DexScreener._validate_token_address bad = .error er →
      ∀ post : List String,
        (pre ++ bad :: post).forM DexScreener._validate_token_address = .error er := by
  intro pre
  induction pre with
  | nil =>
    intro _ hbad post
    rw [List.nil_append]
    show DexScreener._validate_token_address bad >>=
      (fun _ => post.forM DexScreener._validate_token_address) = Except.error er
    rw [hbad]
    rfl
  | cons x pre ih =>
    intro hpre hbad post
    rw [List.cons_append]
    show DexScreener._validate_token_address x >>=
      (fun _ => (pre ++ bad :: post).forM DexScreener._validate_token_address) =
      Except.error er
    rw [hpre x (by simp)]
    simpa [bind, Except.bind] using ih (fun b hb => hpre b (by simp [hb])) hbad post

theorem poolStep_eq (sol_mint address : String) (st : Json × Dec) (e : Json) :
    DexScreener.poolStep sol_mint address st e =
      match DexScreener.entryLiq sol_mint address e with
      | .ok (some l) => .ok (if Dec.blt st.2 l then (e, l) else st)
      | .ok none => .ok st
      | .error er => .error er := by
  simp only [DexScreener.poolStep, bind, Except.bind]
  cases h : DexScreener.entryLiq sol_mint address e with
  | error er => rfl
  | ok r =>
    cases r with
    | none => rfl
    | some l =>
      by_cases hb : Dec.blt st.2 l <;> simp [hb, pure, Except.pure]

theorem pool_fold_skip (sol_mint address : String) (token_pairs : List Json)
    (h : ∀ e ∈ token_pairs, DexScreener.entryLiq sol_mint address e = .ok none) :
    ∀ st, List.foldlM (DexScreener.poolStep sol_mint address) st token_pairs = .ok st := by
  induction token_pairs with
  | nil => intro st; rfl
  | cons e rest ih =>
    intro st
    rw [List.foldlM_cons, poolStep_eq, h e (by simp)]
    simp only [bind, Except.bind]
    exact ih (fun x hx => h x (by simp [hx])) st

theorem entryLiq_of_safeNonMatch (sol_mint address : String) (e : Json)
    (h : DexScreener.safeNonMatch sol_mint address e = true) :
    DexScreener.entryLiq sol_mint address e = .ok none := by
  rw [DexScreener.safeNonMatch] at h
  simp only [DexScreener.entryLiq, bind, Except.bind]
  cases hb1 : e.pyGet "baseToken" (.obj []) with
  | error er =>
    rw [hb1] at h
    simp [Except.bind] at h
  | ok b =>
    rw [hb1] at h
    simp only [Except.bind] at h
    dsimp only
    cases hb2 : b.pyGet "address" .null with
    | error er =>
      rw [hb2] at h
      simp at h
    | ok v =>
      rw [hb2] at h
      dsimp only at h ⊢
      by_cases hv : v = Json.str address
      · rw [if_pos hv]
        rw [show (v == Json.str address) = true from beq_iff_eq.mpr hv] at h
        rw [if_pos rfl] at h
        cases hq1 : e.getItem "quoteToken" with
        | error er =>
          rw [hq1] at h
          simp at h
        | ok q =>
          rw [hq1] at h
          simp only [Except.bind] at h
          dsimp only
          cases hq2 : q.getItem "address" with
          | error er =>
            rw [hq2] at h
            simp at h
          | ok w =>
            rw [hq2] at h
            simp only [Bool.not_eq_true'] at h
            dsimp only
            rw [if_neg (fun hw => by rw [hw] at h; simp at h)]
            rfl
      · rw [if_neg hv]
        rfl

theorem matchedPairs_cons (sol_mint address : String) (e : Json) (rest : List Json) :
    DexScreener.matchedPairs sol_mint address (e :: rest) =
      (match DexScreener.entryLiq sol_mint address e with
       | .ok (some l) => [(e, l)]
       | _ => []) ++ DexScreener.matchedPairs sol_mint address rest := by
  simp only [DexScreener.matchedPairs, List.filterMap_cons]
  cases hel : DexScreener.entryLiq sol_mint address e with
  | ok r => cases r <;> simp
  | error er => simp

theorem pool_fold_eq (sol_mint address : String) :
    ∀ (token_pairs : List Json) (st : Json × Dec),
      (∀ e ∈ token_pairs, DexScreener.entryOk sol_mint address e = true) →
      List.foldlM (DexScreener.poolStep sol_mint address) st token_pairs =
        .ok ((DexScreener.matchedPairs sol_mint address token_pairs).foldl
          DexScreener.maxStep st) := by
  intro tp
  induction tp with
  | nil => intro st h; rfl
  | cons e rest ih =>
    intro st h
    rw [List.foldlM_cons, poolStep_eq, matchedPairs_cons]
    have he := h e (by simp)
    rw [DexScreener.entryOk] at he
    cases hel : DexScreener.entryLiq sol_mint address e with
    | error er => simp [hel] at he
    | ok r =>
      cases r with
      | none =>
        dsimp only
        simp only [bind, Except.bind, List.nil_append]
        exact ih st (fun x hx => h x (by simp [hx]))
      | some l =>
        dsimp only
        simp only [bind, Except.bind, List.cons_append, List.nil_append,
          List.foldl_cons]
        have hmax : DexScreener.maxStep st (e, l) =
            if Dec.blt st.2 l then (e, l) else st := rfl
        rw [hmax]
        exact ih _ (fun x hx => h x (by simp [hx]))

theorem foldl_maxStep_spec : ∀ (M : List (Json × Dec)) (st : Json × Dec),
    (M.foldl DexScreener.maxStep st = st ∧ ∀ p ∈ M, p.2.toRat ≤ st.2.toRat) ∨
    (∃ pre p post, M = pre ++ p :: post ∧ M.foldl DexScreener.maxStep st = p ∧
      st.2.toRat < p.2.toRat ∧ (∀ q ∈ pre, q.2.toRat < p.2.toRat) ∧
      (∀ q ∈ post, q.2.toRat ≤ p.2.toRat)) := by
  intro M
  induction M with
  | nil => intro st; left; exact ⟨rfl, by simp⟩
  | cons a M ih =>
    intro st
    rw [List.foldl_cons]
    by_cases hb : Dec.blt st.2 a.2 = true
    · have hst : DexScreener.maxStep st a = a := by
        rw [DexScreener.maxStep, if_pos hb]
      rw [hst]
      rcases ih a with ⟨hfold, hall⟩ | ⟨pre, p, post, hsplit, hfold, hlt, hpre, hpost⟩
      · right
        exact ⟨[], a, M, rfl, hfold, (Dec.blt_iff _ _).mp hb, by simp, hall⟩
      · right
        refine ⟨a :: pre, p, post, by rw [hsplit]; rfl, hfold,
          lt_trans ((Dec.blt_iff _ _).mp hb) hlt, ?_, hpost⟩
        intro q hq
        rcases List.mem_cons.mp hq with rfl | hq
        · exact hlt
        · exact hpre q hq
    · have hst : DexScreener.maxStep st a = st := by
        rw [DexScreener.maxStep, if_neg hb]
      rw [hst]
      have hle : a.2.toRat ≤ st.2.toRat := by
        have hnot : ¬ st.2.toRat < a.2.toRat := fun hc => hb ((Dec.blt_iff _ _).mpr hc)
        exact not_lt.mp hnot
      rcases ih st with ⟨hfold, hall⟩ | ⟨pre, p, post, hsplit, hfold, hlt, hpre, hpost⟩
      · left
        refine ⟨hfold, ?_⟩
        intro q hq
        rcases List.mem_cons.mp hq with rfl | hq
        · exact hle
        · exact hall q hq
      · right
        refine ⟨a :: pre, p, post, by rw [hsplit]; rfl, hfold, hlt, ?_, hpost⟩
        intro q hq
        rcases List.mem_cons.mp hq with rfl | hq
        · exact lt_of_le_of_lt hle hlt
        · exact hpre q hq

theorem natOfDigitsAux_eq (cs : List Char) :
    ∀ acc : ℕ, (∀ c ∈ cs, c.isDigit = true) →
      natOfDigitsAux acc cs = some (acc * 10 ^ cs.length + digitsVal cs) := by
  induction cs with
  | nil =>
    intro acc _
    simp [natOfDigitsAux, digitsVal]
  | cons c cs ih =>
    intro acc h
    rw [natOfDigitsAux, if_pos (h c (by simp)), ih _ (fun x hx => h x (by simp [hx]))]
    rw [digitsVal, List.length_cons, pow_succ]
    congr 1
    ring

theorem digit_ne_dot (c : Char) (h : c.isDigit = true) : c ≠ '.' := by
  intro hc
  rw [hc] at h
  exact absurd h (by decide)

theorem takeWhile_digits_dot (d2 : List Char) :
    ∀ d1 : List Char, (∀ c ∈ d1, c.isDigit = true) →
      (d1 ++ '.' :: d2).takeWhile (fun c => decide (c ≠ '.')) = d1 := by
  intro d1
  induction d1 with
  | nil =>
    intro _
    rw [List.nil_append, List.takeWhile_cons]
    simp
  | cons c cs ih =>
    intro h
    rw [List.cons_append, List.takeWhile_cons]
    have hc : (decide (c ≠ '.')) = true := by
      simp [digit_ne_dot c (h c (by simp))]
    rw [hc, if_pos rfl, ih (fun x hx => h x (by simp [hx]))]

theorem dropWhile_digits_dot (d2 : List Char) :
    ∀ d1 : List Char, (∀ c ∈ d1, c.isDigit = true) →
      (d1 ++ '.' :: d2).dropWhile (fun c => decide (c ≠ '.')) = '.' :: d2 := by
  intro d1
  induction d1 with
  | nil =>
    intro _
    rw [List.nil_append, List.dropWhile_cons]
    simp
  | cons c cs ih =>
    intro h
    rw [List.cons_append, List.dropWhile_cons]
    have hc : (decide (c ≠ '.')) = true := by
      simp [digit_ne_dot c (h c (by simp))]
    rw [hc, if_pos rfl, ih (fun x hx => h x (by simp [hx]))]

theorem span_digits_dot (d1 d2 : List Char) (h1 : ∀ c ∈ d1, c.isDigit = true) :
    (d1 ++ '.' :: d2).span (fun c => decide (c ≠ '.')) = (d1, '.' :: d2) := by
  rw [List.span_eq_take_drop, takeWhile_digits_dot d2 d1 h1,
    dropWhile_digits_dot d2 d1 h1]

theorem contains_dot_eq_false (d2 : List Char) (h : ∀ c ∈ d2, c.isDigit = true) :
    d2.contains '.' = false := by
  have hmem : '.' ∉ d2 := fun hc => absurd (h '.' hc) (by decide)
  simpa using hmem

theorem parseUnsignedDecimal_frac (d1 d2 : List Char)
    (h1 : ∀ c ∈ d1, c.isDigit = true) (h2 : ∀ c ∈ d2, c.isDigit = true)
    (hne : d1 ≠ []) :
    parseUnsignedDecimal (d1 ++ '.' :: d2) =
      some (Dec.mk ((digitsVal d1 : ℤ) * 10 ^ d2.length + (digitsVal d2 : ℤ))
        d2.length) := by
  rw [parseUnsignedDecimal]
  rw [span_digits_dot d1 d2 h1]
  dsimp only
  rw [contains_dot_eq_false d2 h2]
  have hie : d1.isEmpty = false := by
    cases d1 with
    | nil => exact absurd rfl hne
    | cons c cs => rfl
  rw [hie]
  simp only [Bool.false_and, Bool.false_eq_true, if_false]
  rw [natOfDigitsAux_eq d1 0 h1, natOfDigitsAux_eq d2 0 h2]
  dsimp only
  congr 2
  push_cast
  ring

theorem parseDecimalString_frac (d1 d2 : List Char)
    (h1 : ∀ c ∈ d1, c.isDigit = true) (h2 : ∀ c ∈ d2, c.isDigit = true)
    (hne : d1 ≠ []) :
    parseDecimalString (String.mk (d1 ++ '.' :: d2)) =
      some (Dec.mk ((digitsVal d1 : ℤ) * 10 ^ d2.length + (digitsVal d2 : ℤ))
        d2.length) := by
  rw [parseDecimalString]
  cases d1 with
  | nil => exact absurd rfl hne
  | cons c cs =>
    have hc := h1 c (by simp)
    have hmc : c ≠ '-' := by intro hcc; rw [hcc] at hc; exact absurd hc (by decide)
    have hpc : c ≠ '+' := by intro hcc; rw [hcc] at hc; exact absurd hc (by decide)
    split
    next x rest heq =>
      have heq' : c :: (cs ++ '.' :: d2) = '-' :: rest := heq
      injection heq' with hh _
      exact absurd hh hmc
    next x rest heq =>
      have heq' : c :: (cs ++ '.' :: d2) = '+' :: rest := heq
      injection heq' with hh _
      exact absurd hh hpc
    next x hno1 hno2 =>
      show parseUnsignedDecimal ((c :: cs) ++ '.' :: d2) = _
      exact parseUnsignedDecimal_frac (c :: cs) d2 h1 h2 (by simp)

theorem fetch_prices_eq_fold (addrs : List String) (resp : Response) (s : Json)
    (hne : addrs.isEmpty = false) (hs : resp.status_code = 200)
    (hsf : resp.body.pyGet "success" .null = .ok s) (htr : s.truthy = true) :
    BirdEye.fetch_prices addrs resp =
      List.foldlM (BirdEye.fetchPricesStep resp.body) [] addrs := by
  rw [BirdEye.fetch_prices]
  simp [hne, hs, hsf, htr, bind, Except.bind, pure, Except.pure]

/-- C1: as stated, the claim fails for `fetch_prices_dex`: the result dict
is keyed by the base-token addresses found in the provider response, which
the code never filters against the request.  Here the single requested
address is valid, but the response names a base token `"FOREIGN"` that was
never requested, and `"FOREIGN"` ends up as a result key. -/
theorem fetch_prices_dex_foreign_key :
    DexScreener.fetch_prices_dex [sysAddr] respDexForeignKey =
      .ok [(Json.str "FOREIGN", ⟨Dec.mk 1 0, Dec.mk 5 0⟩)] ∧
    Json.str "FOREIGN" ∉ List.map Json.str [sysAddr] := by
  constructor
  · decide
  · decide

/-- C1 (amended): `fetch_prices` returns a mapping whose keys are a subset
of the requested list; `fetch_prices_dex` does so provided every pair in
the response carries a base-token address among the requested addresses
(its keys always come from the response pairs). -/
theorem bulk_price_keys_subset :
    (∀ (addrs : List String) (resp : Response) (d : List (String × PriceInfo))
        (a : String),
      BirdEye.fetch_prices addrs resp = .ok d → a ∈ dictKeys d → a ∈ addrs) ∧
    (∀ (addrs : List String) (resp : Response) (d : List (Json × PriceInfo))
        (pairs : List Json) (k : Json),
      resp.body.getItem "pairs" = .ok (.arr pairs) →
      DexScreener.fetch_prices_dex addrs resp = .ok d →
      (∀ p ∈ pairs, ∀ e, DexScreener.dexPairEntry p = .ok e →
        e.1 ∈ addrs.map Json.str) →
      k ∈ dictKeys d → k ∈ addrs.map Json.str) := by
  constructor
  · intro addrs resp d a hcall hk
    by_contra hna
    have hfold := fetch_prices_ok_inv addrs resp d hcall
    have hget := birdeye_fold_get resp.body addrs [] d hfold a
    rw [if_neg hna] at hget
    exact absurd ((dictGet?_eq_none_iff d a).mp hget) (fun hnk => hnk hk)
  · intro addrs resp d pairs k hpairs hcall hbase hk
    obtain ⟨pairs', hp', hfold⟩ := fetch_prices_dex_ok_inv addrs resp d hcall
    rw [hpairs] at hp'
    have hpp : pairs = pairs' := by
      have h1 := Except.ok.inj hp'
      cases h1
      rfl
    subst hpp
    have hget := dex_fold_get pairs [] d hfold k
    cases hl : DexScreener.lastPairInfo pairs k with
    | none =>
      rw [hl] at hget
      exact absurd ((dictGet?_eq_none_iff d k).mp hget) (fun hnk => hnk hk)
    | some pi =>
      obtain ⟨p, hp, e, he, hek, _⟩ := lastPairInfo_mem pairs k pi hl
      have hin := hbase p hp e he
      rwa [hek] at hin

/-- C1 (witness): the amended subset statements applied to concrete calls
of both providers. -/
theorem bulk_price_keys_subset_witness :
    sysAddr ∈ [sysAddr, sysAddrB] ∧
    Json.str sysAddr ∈ List.map Json.str [sysAddr] := by
  constructor
  · exact bulk_price_keys_subset.1 [sysAddr, sysAddrB] respBirdOne
      [(sysAddr, ⟨Dec.mk 123 2, Dec.mk 1000 0⟩)] sysAddr (by decide) (by decide)
  · refine bulk_price_keys_subset.2 [sysAddr] respDexOwnKey
      [(Json.str sysAddr, ⟨Dec.mk 1 0, Dec.mk 5 0⟩)]
      [mkPair sysAddr "SOL" (Dec.mk 5 0)] (Json.str sysAddr) (by decide)
      (by decide) ?_ (by decide)
    intro p hp e he
    have hp' : p = mkPair sysAddr "SOL" (Dec.mk 5 0) := by simpa using hp
    subst hp'
    have h2 : DexScreener.dexPairEntry (mkPair sysAddr "SOL" (Dec.mk 5 0)) =
        .ok (Json.str sysAddr, ⟨Dec.mk 1 0, Dec.mk 5 0⟩) := by decide
    rw [h2] at he
    have he' := Except.ok.inj he
    rw [← he']
    decide

/-- C2: on a 200 response with an empty pairs list, Provider B's
`fetch_token_overview` raises a bare `IndexError` from `data['pairs'][0]`:
the code has no explicit empty-pairs guard, and no `NoPairsFoundError`
exception exists among its imports, contrary to the spec. -/
theorem fetch_token_overview_empty_pairs :
    DexScreener.fetch_token_overview sysAddr respDexNoPairs =
      .error .IndexError := by
  decide

/-- C3: as stated, the claim fails: a pair record whose base token matches
the address but which lacks a `quoteToken` key is not a matching pair, yet
the scan raises `KeyError` on it, because `entry["quoteToken"]["address"]`
is bracket subscription, not a guarded `.get`. -/
theorem find_largest_pool_keyerror :
    DexScreener.pairMatchesSpec "SOL" "X" pairNoQuote = false ∧
    DexScreener.find_largest_pool_with_sol "SOL" [pairNoQuote] "X" =
      .error (.KeyError "quoteToken") := by
  constructor
  · decide
  · decide

/-- C3 (amended): when every pair record either reads a base-token address
different from the given one, or reads one equal to it together with a
readable quote-token address different from the wrapped-SOL mint (so no
pair matches and no read raises), `find_largest_pool_with_sol` returns the
empty dict and never raises. -/
theorem find_largest_pool_no_match (sol_mint address : String)
    (token_pairs : List Json)
    (h : ∀ e ∈ token_pairs, DexScreener.safeNonMatch sol_mint address e = true) :
    DexScreener.find_largest_pool_with_sol sol_mint token_pairs address =
      .ok (Json.obj []) := by
  rw [DexScreener.find_largest_pool_with_sol]
  rw [pool_fold_skip sol_mint address token_pairs
    (fun e he => entryLiq_of_safeNonMatch sol_mint address e (h e he)) _]
  rfl

/-- C3 (witness): the amended statement applied to a single non-matching
pair. -/
theorem find_largest_pool_no_match_witness :
    DexScreener.find_largest_pool_with_sol "SOL" [mkPair "Y" "SOL" (Dec.mk 7 0)]
      "X" = .ok (Json.obj []) :=
  find_largest_pool_no_match "SOL" "X" [mkPair "Y" "SOL" (Dec.mk 7 0)] (by decide)

/-- C4: as stated, the claim fails: a single matching pair whose USD
liquidity is −2 does not beat the scan's initial running maximum of −1, so
the function returns the empty dict instead of the matching pair with the
maximum liquidity. -/
theorem find_largest_pool_neg_liquidity :
    DexScreener.pairMatchesSpec "SOL" "X" pairNegLiq = true ∧
    DexScreener.matchedPairs "SOL" "X" [pairNegLiq] =
      [(pairNegLiq, Dec.mk (-2) 0)] ∧
    DexScreener.find_largest_pool_with_sol "SOL" [pairNegLiq] "X" =
      .ok (Json.obj []) ∧
    Json.obj [] ≠ pairNegLiq := by
  refine ⟨by decide, by decide, by decide, by decide⟩

/-- C4 (amended): when every pair record is read without raising, and some
matching pair has liquidity above the initial −1 running maximum (in
particular whenever liquidities are non-negative), the function returns
the first matching pair of maximum USD liquidity: everything before it in
the matching list is strictly smaller, everything after it is no larger
(ties resolve first-seen because the comparison is strict).  The spec's
concrete example holds: among base-X/quote-SOL pairs of liquidity 100 and
500 plus a base-X/quote-OTHER pair of liquidity 900, the liquidity-500
pair is returned. -/
theorem find_largest_pool_first_max :
    (∀ (sol_mint address : String) (token_pairs : List Json),
      (∀ e ∈ token_pairs, DexScreener.entryOk sol_mint address e = true) →
      (∃ p ∈ DexScreener.matchedPairs sol_mint address token_pairs,
        Dec.blt (Dec.mk (-1) 0) p.2 = true) →
      ∃ pre p post,
        DexScreener.matchedPairs sol_mint address token_pairs =
          pre ++ p :: post ∧
        DexScreener.find_largest_pool_with_sol sol_mint token_pairs address =
          .ok p.1 ∧
        (∀ q ∈ pre, q.2.toRat < p.2.toRat) ∧
        (∀ q ∈ post, q.2.toRat ≤ p.2.toRat)) ∧
    DexScreener.find_largest_pool_with_sol "SOL" examplePools "X" =
      .ok (mkPair "X" "SOL" (Dec.mk 500 0)) := by
  constructor
  · intro sol_mint address tp hok hex
    have hfold := pool_fold_eq sol_mint address tp (Json.obj [], Dec.mk (-1) 0) hok
    rcases foldl_maxStep_spec (DexScreener.matchedPairs sol_mint address tp)
        (Json.obj [], Dec.mk (-1) 0) with
      ⟨hf, hall⟩ | ⟨pre, p, post, hsplit, hf, _, hpre, hpost⟩
    · obtain ⟨p, hp, hblt⟩ := hex
      exact absurd ((Dec.blt_iff _ _).mp hblt) (not_lt.mpr (hall p hp))
    · refine ⟨pre, p, post, hsplit, ?_, hpre, hpost⟩
      rw [DexScreener.find_largest_pool_with_sol, hfold]
      simp [bind, Except.bind, pure, Except.pure, hf]
  · decide

/-- C4 (witness): the amended first-maximum statement applied to the
spec's three-pair example. -/
theorem find_largest_pool_first_max_witness :
    ∃ pre p post,
      DexScreener.matchedPairs "SOL" "X" examplePools = pre ++ p :: post ∧
      DexScreener.find_largest_pool_with_sol "SOL" examplePools "X" =
        .ok p.1 ∧
      (∀ q ∈ pre, q.2.toRat < p.2.toRat) ∧
      (∀ q ∈ post, q.2.toRat ≤ p.2.toRat) :=
  find_largest_pool_first_max.1 "SOL" "X" examplePools (by decide)
    ⟨(mkPair "X" "SOL" (Dec.mk 500 0), Dec.mk 500 0), by decide, by decide⟩

/-- C5: as stated, the claim fails for the empty address, which is
syntactically invalid but is rejected by Provider B's validator with
`NoPositionsError` (its emptiness check fires before the syntactic one),
not `InvalidSolanaAddress`. -/
theorem empty_address_wrong_error :
    is_solana_address "" = false ∧
    DexScreener.fetch_token_overview "" ⟨200, Json.obj []⟩ =
      .error .NoPositionsError := by
  constructor
  · decide
  · decide

/-- C5 (amended): every invalid address makes Provider A's overview fail
with `InvalidSolanaAddress`; every non-empty invalid address makes
Provider B's overview fail the same way; a batch containing a non-empty
invalid address (preceded by valid ones) fails with `InvalidSolanaAddress`
at that address; and the empty address makes Provider B fail with
`NoPositionsError` instead.  Every conclusion holds for an arbitrary
response, so the failure is decided before any network call. -/
theorem invalid_address_rejected :
    (∀ (a : String) (resp : Response), is_solana_address a = false →
      BirdEye.fetch_token_overview a resp = .error (.InvalidSolanaAddress a)) ∧
    (∀ (a : String) (resp : Response), a.isEmpty = false →
      is_solana_address a = false →
      DexScreener.fetch_token_overview a resp =
        .error (.InvalidSolanaAddress a)) ∧
    (∀ (pre : List String) (bad : String) (post : List String) (resp : Response),
      (∀ b ∈ pre, b.isEmpty = false ∧ is_solana_address b = true) →
      bad.isEmpty = false → is_solana_address bad = false →
      DexScreener.fetch_prices_dex (pre ++ bad :: post) resp =
        .error (.InvalidSolanaAddress bad)) ∧
    (∀ (a : String) (resp : Response), a.isEmpty = true →
      DexScreener.fetch_token_overview a resp = .error .NoPositionsError) := by
  refine ⟨?_, ?_, ?_, ?_⟩
  · intro a resp h
    rw [BirdEye.fetch_token_overview]
    simp [h, bind, Except.bind, throw, throwThe, MonadExceptOf.throw]
  · intro a resp h1 h2
    rw [DexScreener.fetch_token_overview, DexScreener._call_api,
      validate_token_address_invalid a h1 h2]
    rfl
  · intro pre bad post resp hpre h1 h2
    have hlist : (pre ++ bad :: post).isEmpty = false := by
      cases pre <;> rfl
    rw [DexScreener.fetch_prices_dex, DexScreener._call_api_bulk,
      DexScreener._validate_token_addresses]
    rw [hlist]
    have hforM := validate_forM_error (.InvalidSolanaAddress bad) bad pre
      (fun b hb => validate_token_address_ok b (hpre b hb).1 (hpre b hb).2)
      (validate_token_address_invalid bad h1 h2) post
    simp [hforM, bind, Except.bind, pure, Except.pure]
  · intro a resp h
    rw [DexScreener.fetch_token_overview, DexScreener._call_api,
      DexScreener._validate_token_address]
    rw [h]
    rfl

/-- C5 (witness): the amended statements applied to a concrete invalid
address, for both single-address methods and a batch in which it follows a
valid address. -/
theorem invalid_address_rejected_witness :
    BirdEye.fetch_token_overview badAddr ⟨200, Json.obj []⟩ =
      .error (.InvalidSolanaAddress badAddr) ∧
    DexScreener.fetch_token_overview badAddr ⟨200, Json.obj []⟩ =
      .error (.InvalidSolanaAddress badAddr) ∧
    DexScreener.fetch_prices_dex ([sysAddr] ++ badAddr :: []) ⟨200, Json.obj []⟩ =
      .error (.InvalidSolanaAddress badAddr) :=
  ⟨invalid_address_rejected.1 badAddr ⟨200, Json.obj []⟩ (by decide),
   invalid_address_rejected.2.1 badAddr ⟨200, Json.obj []⟩ (by decide) (by decide),
   invalid_address_rejected.2.2.1 [sysAddr] badAddr [] ⟨200, Json.obj []⟩
     (by decide) (by decide) (by decide)⟩

/-- C6: on an empty address list both bulk price methods fail with
`NoPositionsError` (the repository's `EmptyInputError`), and the failure is
the same for every response, so no network call is consulted. -/
theorem empty_list_no_positions (resp : Response) :
    BirdEye.fetch_prices [] resp = .error .NoPositionsError ∧
    DexScreener.fetch_prices_dex [] resp = .error .NoPositionsError := by
  constructor
  · rfl
  · rfl

/-- C7: in `fetch_prices_dex`, when the response pairs split as
`pre ++ pair :: post` where `pair` parses with base-token address `k` and
no pair in `post` parses with that address, the result entry for `k` is
exactly the `PriceInfo` built from `pair`: later pairs overwrite earlier
ones, last write wins. -/
theorem fetch_prices_dex_last_write_wins (addrs : List String)
    (resp : Response) (d : List (Json × PriceInfo))
    (pairs pre post : List Json) (pair k : Json) (pi : PriceInfo)
    (hcall : DexScreener.fetch_prices_dex addrs resp = .ok d)
    (hpairs : resp.body.getItem "pairs" = .ok (.arr pairs))
    (hsplit : pairs = pre ++ pair :: post)
    (hentry : DexScreener.dexPairEntry pair = .ok (k, pi))
    (hlast : ∀ q ∈ post, ∀ e, DexScreener.dexPairEntry q = .ok e → e.1 ≠ k) :
    dictGet? d k = some pi := by
  obtain ⟨pairs', hp', hfold⟩ := fetch_prices_dex_ok_inv addrs resp d hcall
  rw [hpairs] at hp'
  have hpp : pairs = pairs' := by
    have h1 := Except.ok.inj hp'
    cases h1
    rfl
  subst hpp
  have hget := dex_fold_get pairs [] d hfold k
  have hlpi : DexScreener.lastPairInfo pairs k = some pi := by
    rw [hsplit, DexScreener.lastPairInfo]
    have hnone : post.reverse.find? (DexScreener.pairKeyIs k) = none := by
      rw [List.find?_eq_none]
      intro q hq
      rw [DexScreener.pairKeyIs]
      cases hqe : DexScreener.dexPairEntry q with
      | error e => simp
      | ok e =>
        have hne := hlast q (List.mem_reverse.mp hq) e hqe
        simp [hne]
    have hyes : DexScreener.pairKeyIs k pair = true := by
      rw [DexScreener.pairKeyIs, hentry]
      simp
    rw [List.reverse_append, List.reverse_cons, List.find?_append,
      List.find?_append, hnone]
    rw [List.find?_cons_of_pos _ hyes]
    simp [Option.or, hentry]
  rw [hlpi] at hget
  exact hget

/-- C7 (witness): the last-write-wins statement applied to a concrete
response with two pairs sharing the base token `sysAddr`: the result holds
the second pair's price 7 and liquidity 200, not the first pair's. -/
theorem fetch_prices_dex_last_write_wins_witness :
    dictGet? [(Json.str sysAddr, PriceInfo.mk (Dec.mk 7 0) (Dec.mk 200 0))]
      (Json.str sysAddr) = some (PriceInfo.mk (Dec.mk 7 0) (Dec.mk 200 0)) :=
  fetch_prices_dex_last_write_wins [sysAddr] respDexTwoPairs
    [(Json.str sysAddr, PriceInfo.mk (Dec.mk 7 0) (Dec.mk 200 0))]
    [pairEarly, pairLate] [pairEarly] [] pairLate (Json.str sysAddr)
    (PriceInfo.mk (Dec.mk 7 0) (Dec.mk 200 0))
    (by decide) (by decide) rfl (by decide) (by simp)

/-- C8: for a successful Provider A multi-price call, every requested
address whose per-address data is truthy is mapped to the `PriceInfo` with
price and liquidity parsed as exact decimals (defaulting to `"0"` for an
absent field, per `addrEntry`); a requested address whose data is absent
or empty is omitted from the result.  On the spec's concrete
two-address request against a response naming only `sysAddr`, the result
holds exactly one entry, `sysAddr ↦ PriceInfo(1.23, 1000)`. -/
theorem fetch_prices_parses_present_addresses :
    (∀ (addrs : List String) (resp : Response) (d : List (String × PriceInfo))
        (a : String) (pi : PriceInfo),
      BirdEye.fetch_prices addrs resp = .ok d → a ∈ addrs →
      BirdEye.addrEntry resp.body a = .ok (some pi) →
      dictGet? d a = some pi) ∧
    (∀ (addrs : List String) (resp : Response) (d : List (String × PriceInfo))
        (a : String),
      BirdEye.fetch_prices addrs resp = .ok d → a ∈ addrs →
      BirdEye.addrEntry resp.body a = .ok none →
      dictGet? d a = none) ∧
    BirdEye.fetch_prices [sysAddr, sysAddrB] respBirdOne =
      .ok [(sysAddr, ⟨Dec.mk 123 2, Dec.mk 1000 0⟩)] := by
  refine ⟨?_, ?_, by decide⟩
  · intro addrs resp d a pi hcall ha hentry
    have hfold := fetch_prices_ok_inv addrs resp d hcall
    have hget := birdeye_fold_get resp.body addrs [] d hfold a
    rw [if_pos ha, hentry] at hget
    exact hget
  · intro addrs resp d a hcall ha hentry
    have hfold := fetch_prices_ok_inv addrs resp d hcall
    have hget := birdeye_fold_get resp.body addrs [] d hfold a
    rw [if_pos ha, hentry] at hget
    exact hget

/-- C8 (witness): the general mapping statements applied at the concrete
two-address request: the present address maps to its parsed `PriceInfo`,
the absent one is omitted. -/
theorem fetch_prices_parses_present_addresses_witness :
    dictGet? [(sysAddr, PriceInfo.mk (Dec.mk 123 2) (Dec.mk 1000 0))] sysAddr =
      some (PriceInfo.mk (Dec.mk 123 2) (Dec.mk 1000 0)) ∧
    dictGet? [(sysAddr, PriceInfo.mk (Dec.mk 123 2) (Dec.mk 1000 0))] sysAddrB =
      none :=
  ⟨fetch_prices_parses_present_addresses.1 [sysAddr, sysAddrB] respBirdOne
     [(sysAddr, PriceInfo.mk (Dec.mk 123 2) (Dec.mk 1000 0))] sysAddr
     (PriceInfo.mk (Dec.mk 123 2) (Dec.mk 1000 0)) (by decide) (by decide)
     (by decide),
   fetch_prices_parses_present_addresses.2.1 [sysAddr, sysAddrB] respBirdOne
     [(sysAddr, PriceInfo.mk (Dec.mk 123 2) (Dec.mk 1000 0))] sysAddrB
     (by decide) (by decide) (by decide)⟩

/-- C9: decimal strings parse to the exact decimal value they denote, with
no floating-point rounding: for any digit strings `d1` and `d2`,
`Decimal("d1.d2")` yields a value whose rational reading is exactly
`d1 + d2 / 10 ^ |d2|`; and through a full `fetch_prices` call the
high-precision string `"0.000000001234"` is stored as exactly
`1234 / 10 ^ 12`. -/
theorem decimal_round_trip_exact :
    (∀ d1 d2 : List Char, (∀ c ∈ d1, c.isDigit = true) →
      (∀ c ∈ d2, c.isDigit = true) → d1 ≠ [] →
      ∃ dec : Dec, parseDecimalString (String.mk (d1 ++ '.' :: d2)) = some dec ∧
        dec.toRat = (digitsVal d1 : ℚ) + (digitsVal d2 : ℚ) / 10 ^ d2.length) ∧
    BirdEye.fetch_prices [sysAddr] respBirdHighPrecision =
      .ok [(sysAddr, ⟨Dec.mk 1234 12, Dec.mk 1000 0⟩)] ∧
    (Dec.mk 1234 12).toRat = 1234 / 10 ^ 12 := by
  refine ⟨?_, by decide, by norm_num [Dec.toRat]⟩
  intro d1 d2 h1 h2 hne
  refine ⟨_, parseDecimalString_frac d1 d2 h1 h2 hne, ?_⟩
  rw [Dec.toRat]
  push_cast
  rw [add_div]
  congr 1
  rw [mul_div_assoc]
  rw [div_self (by positivity), mul_one]

/-- C9 (witness): the parser-exactness statement applied to the
high-precision string `"0.000000001234"`. -/
theorem decimal_round_trip_exact_witness :
    ∃ dec : Dec,
      parseDecimalString (String.mk (['0'] ++ '.' :: "000000001234".toList)) =
        some dec ∧
      dec.toRat = (digitsVal ['0'] : ℚ) +
        (digitsVal "000000001234".toList : ℚ) /
          10 ^ ("000000001234".toList).length :=
  decimal_round_trip_exact.1 ['0'] "000000001234".toList (by decide) (by decide)
    (by decide)

/-- C10: for a successful (200, success-flag-truthy) Provider A multi-price
response, a payload with no `data` key at all yields the empty mapping with
no error; and when every requested address's entry under `data` is missing
or the empty object, the result is again the empty mapping with no error:
missing structure below the success flag is never a failure. -/
theorem fetch_prices_missing_data_ok :
    (∀ (addrs : List String) (resp : Response) (fields : List (String × Json)),
      addrs ≠ [] → resp.status_code = 200 → resp.body = .obj fields →
      (∃ s, jsonLookup fields "success" = some s ∧ s.truthy = true) →
      jsonLookup fields "data" = none →
      BirdEye.fetch_prices addrs resp = .ok []) ∧
    (∀ (addrs : List String) (resp : Response)
        (fields D : List (String × Json)),
      addrs ≠ [] → resp.status_code = 200 → resp.body = .obj fields →
      (∃ s, jsonLookup fields "success" = some s ∧ s.truthy = true) →
      jsonLookup fields "data" = some (.obj D) →
      (∀ a ∈ addrs, jsonLookup D a = none ∨ jsonLookup D a = some (.obj [])) →
      BirdEye.fetch_prices addrs resp = .ok []) := by
  constructor
  · intro addrs resp fields hne hs hbody ⟨s, hsf, htr⟩ hdata
    have hie : addrs.isEmpty = false := by
      cases addrs with
      | nil => exact absurd rfl hne
      | cons x xs => rfl
    have hsucc : resp.body.pyGet "success" .null = .ok s := by
      rw [hbody, Json.pyGet, hsf]
      rfl
    rw [fetch_prices_eq_fold addrs resp s hie hs hsucc htr]
    refine birdeye_fold_skip resp.body addrs ?_ []
    intro a ha
    rw [BirdEye.addrEntry, hbody]
    simp [Json.pyGet, hdata, jsonLookup, Json.truthy, bind, Except.bind, pure,
      Except.pure]
  · intro addrs resp fields D hne hs hbody ⟨s, hsf, htr⟩ hdata hentries
    have hie : addrs.isEmpty = false := by
      cases addrs with
      | nil => exact absurd rfl hne
      | cons x xs => rfl
    have hsucc : resp.body.pyGet "success" .null = .ok s := by
      rw [hbody, Json.pyGet, hsf]
      rfl
    rw [fetch_prices_eq_fold addrs resp s hie hs hsucc htr]
    refine birdeye_fold_skip resp.body addrs ?_ []
    intro a ha
    rw [BirdEye.addrEntry, hbody]
    rcases hentries a ha with hmiss | hempty
    · simp [Json.pyGet, hdata, hmiss, Json.truthy, bind, Except.bind, pure,
        Except.pure]
    · simp [Json.pyGet, hdata, hempty, Json.truthy, bind, Except.bind, pure,
        Except.pure]

/-- C10 (witness): the missing-structure statements applied to a response
with no `data` key and to one whose only entry is the empty object. -/
theorem fetch_prices_missing_data_ok_witness :
    BirdEye.fetch_prices [sysAddr] respBirdNoData = .ok [] ∧
    BirdEye.fetch_prices [sysAddr] respBirdEmptyEntry = .ok [] :=
  ⟨fetch_prices_missing_data_ok.1 [sysAddr] respBirdNoData
     [("success", .bool true)] (by decide) rfl rfl ⟨.bool true, rfl, rfl⟩ rfl,
   fetch_prices_missing_data_ok.2 [sysAddr] respBirdEmptyEntry
     [("success", .bool true), ("data", .obj [(sysAddr, .obj [])])]
     [(sysAddr, .obj [])] (by decide) rfl rfl ⟨.bool true, rfl, rfl⟩ rfl
     (by decide)⟩

end TokenClients
